import Mathlib

/-!
Verification of the scenario-runner design of the `testsprite_tests` scripts.

Each Python script `TCxxx_*.py` has the same shape: a `run_test` coroutine that

  * acquires a Session (`pw = await async_api.async_playwright().start()`,
    `browser = await pw.chromium.launch(...)`, `context = await browser.new_context()`,
    `page = await context.new_page()`), each variable initialised to `None` first;
  * runs a straight-line sequence of UI steps (`page.goto`, best-effort
    `wait_for_load_state` in `try/except async_api.Error: pass`, `elem.fill`,
    `elem.click(timeout=...)`, `expect(...).to_be_visible(timeout=...)`,
    `asyncio.sleep`);
  * tears down in a bare `finally:` block, closing `context`, `browser`, `pw`
    in that order, each guarded by `if <var>:` — with no `try/except` around
    the close calls.

The embedding below gives each script as a `List Step` and an executor
`runSteps` / `runTest` that follows the Python control flow: an environment
function assigns to each step index the application's observed response
(success or timeout / not-visible), and the executor propagates errors exactly
as Python's exception rules do (uncaught errors abort the remaining body;
`finally` always runs; an exception raised inside `finally` replaces the
in-flight one and skips the rest of the `finally` block).
-/

/-- The application's observable response to one step: the awaited condition
either occurred in time (`ok`) or the step's deadline passed (`timeout`,
which for an `expect(...).to_be_visible` means the locator never became
visible before the deadline). -/
inductive Outcome
  | ok
  | timeout
deriving DecidableEq, Repr

/-- One atomic UI step of a scenario, as they appear in the scripts.
`assertVisible` carries `some d` when the script wraps the `expect` in
`try/except AssertionError: raise AssertionError(d)` (a fixed diagnostic
string), and `none` when the `expect` is bare. -/
inductive Step
  | navigate (url : String) (timeoutMs : Nat)
  | waitForLoad (timeoutMs : Nat)
  | fill (locator : String) (text : String)
  | click (locator : String) (timeoutMs : Nat)
  | assertVisible (locator : String) (timeoutMs : Nat) (diag : Option String)
  | sleep (seconds : Nat)
deriving DecidableEq, Repr

/-- The message attached to a failed assertion: either the scenario's own
fixed literal string (from the `raise AssertionError("...")` in the
`except` arm) or the assertion library's generated message, which is a
function of the locator and deadline, not a literal of the scenario. -/
inductive Diagnostic
  | fixed (s : String)
  | library (locator : String) (timeoutMs : Nat)
deriving DecidableEq, Repr

/-- The diagnostic produced when the assertion on `loc` fails. -/
def assertDiag (loc : String) (t : Nat) : Option String → Diagnostic
  | some s => .fixed s
  | none => .library loc t

/-- How a step reacts to the application's response: continue to the next
step, abort the body with an uncaught error, or abort with an assertion
failure carrying a diagnostic. -/
inductive StepSem
  | proceed
  | abortError
  | abortFail (d : Diagnostic)
deriving DecidableEq, Repr

/-- Per-step control flow, read off the Python:
`wait_for_load_state` is wrapped in `try/except async_api.Error: pass`, so a
timeout is swallowed and execution continues; `asyncio.sleep` and
`page.wait_for_timeout` cannot fail; `goto`, `fill` and `click` raise an
uncaught `async_api.Error` on timeout; a failed `expect` raises an
`AssertionError` (re-raised with the fixed string when wrapped). -/
def stepSem : Step → Outcome → StepSem
  | .navigate _ _, .timeout => .abortError
  | .fill _ _, .timeout => .abortError
  | .click _ _, .timeout => .abortError
  | .assertVisible loc t d, .timeout => .abortFail (assertDiag loc t d)
  | _, _ => .proceed

/-- The outcome recorded for a step in the execution log: `sleep` always
completes, every other step records the application's response. -/
def traceOut : Step → Outcome → Outcome
  | .sleep _, _ => .ok
  | _, o => o

/-- One entry of the execution log: which step ran (by index) and how the
application responded to it. -/
structure TraceEntry where
  idx : Nat
  step : Step
  out : Outcome
deriving DecidableEq, Repr

/-- Result of running the step sequence of one scenario body. -/
inductive StepResult
  | passed
  | failed (d : Diagnostic)
  | stepError (i : Nat)
deriving DecidableEq, Repr

/-- Execute the steps in order, starting at absolute index `i`, consulting
the environment for the application's response to each step.  Returns the
execution log and the body's result.  Mirrors the Python: a `proceed` step
continues, an uncaught error stops the body at that step, a failed
assertion stops the body with its diagnostic. -/
def runSteps (env : Nat → Outcome) : Nat → List Step → List TraceEntry × StepResult
  | _, [] => ([], .passed)
  | i, s :: rest =>
    match stepSem s (env i) with
    | .proceed =>
      let r := runSteps env (i + 1) rest
      (⟨i, s, traceOut s (env i)⟩ :: r.1, r.2)
    | .abortError => ([⟨i, s, env i⟩], .stepError i)
    | .abortFail d => ([⟨i, s, env i⟩], .failed d)

/-- The diagnostics a body result surfaces (at most one). -/
def diagnostics : StepResult → List Diagnostic
  | .failed d => [d]
  | _ => []

/-- The three Session resources acquired by `run_test`, in acquisition
order `pw` (the engine handle), `browser`, `context`. -/
inductive Resource
  | pw
  | browser
  | context
deriving DecidableEq, Repr

/-- The four acquisition calls, in order; each may raise. -/
inductive SetupStage
  | start
  | launch
  | newContext
  | newPage
deriving DecidableEq, Repr

/-- Whether each acquisition call succeeds in this run. -/
structure SetupEnv where
  startOk : Bool
  launchOk : Bool
  newContextOk : Bool
  newPageOk : Bool
deriving DecidableEq, Repr

/-- Whether each teardown call (`context.close()`, `browser.close()`,
`pw.stop()`) succeeds in this run. -/
structure TearEnv where
  contextCloseOk : Bool
  browserCloseOk : Bool
  pwStopOk : Bool
deriving DecidableEq, Repr

/-- Overall result of one `run_test` invocation. -/
inductive RunResult
  | passed
  | failed (d : Diagnostic)
  | stepError (i : Nat)
  | setupError (s : SetupStage)
  | teardownError (r : Resource)
deriving DecidableEq, Repr

def liftStepResult : StepResult → RunResult
  | .passed => .passed
  | .failed d => .failed d
  | .stepError i => .stepError i

/-- State at the end of the `try` body: its result, which of the three
resource variables are non-`None`, and the execution log. -/
structure BodyOutcome where
  result : RunResult
  hasPw : Bool
  hasBrowser : Bool
  hasContext : Bool
  trace : List TraceEntry
deriving DecidableEq, Repr

/-- The `try` body of `run_test`: the four acquisitions in order (a failure
at any acquisition leaves the later variables at `None` and aborts the
body), then the scenario's steps. -/
def runBody (se : SetupEnv) (env : Nat → Outcome) (steps : List Step) : BodyOutcome :=
  if se.startOk then
    if se.launchOk then
      if se.newContextOk then
        if se.newPageOk then
          let r := runSteps env 0 steps
          ⟨liftStepResult r.2, true, true, true, r.1⟩
        else ⟨.setupError .newPage, true, true, true, []⟩
      else ⟨.setupError .newContext, true, true, false, []⟩
    else ⟨.setupError .launch, true, false, false, []⟩
  else ⟨.setupError .start, false, false, false, []⟩

/-- `if pw: await pw.stop()` — records the stop call if `pw` is non-`None`,
and reports the raised error if the stop fails. -/
def tdStop (hasPw : Bool) (te : TearEnv) : List Resource × Option Resource :=
  if hasPw then ([.pw], if te.pwStopOk then none else some .pw)
  else ([], none)

/-- `if browser: await browser.close()` followed by the `pw` clause.  If the
close raises, the remaining clauses of the `finally` block do not run. -/
def tdBrowser (hasBrowser hasPw : Bool) (te : TearEnv) : List Resource × Option Resource :=
  if hasBrowser then
    if te.browserCloseOk then
      let r := tdStop hasPw te
      (.browser :: r.1, r.2)
    else ([.browser], some .browser)
  else tdStop hasPw te

/-- The whole `finally` block: `if context: await context.close()` then the
`browser` and `pw` clauses.  If a close raises, the rest of the block is
skipped and the error propagates. -/
def tdContext (hasContext hasBrowser hasPw : Bool) (te : TearEnv) :
    List Resource × Option Resource :=
  if hasContext then
    if te.contextCloseOk then
      let r := tdBrowser hasBrowser hasPw te
      (.context :: r.1, r.2)
    else ([.context], some .context)
  else tdBrowser hasBrowser hasPw te

/-- Everything observable about one `run_test` invocation: its final result,
the execution log, and the sequence of close calls made during teardown. -/
structure RunOutcome where
  result : RunResult
  trace : List TraceEntry
  closes : List Resource
deriving DecidableEq, Repr

/-- One `run_test` invocation: the `try` body, then the `finally` block.
Python semantics of `finally`: the block always runs; an exception raised
inside it replaces whatever result or exception the body produced. -/
def runTest (se : SetupEnv) (env : Nat → Outcome) (te : TearEnv) (steps : List Step) :
    RunOutcome :=
  let b := runBody se env steps
  let td := tdContext b.hasContext b.hasBrowser b.hasPw te
  { result := match td.2 with
      | some r => .teardownError r
      | none => b.result
    trace := b.trace
    closes := td.1 }

/-- The run where all four acquisitions succeed. -/
def allOkSetup : SetupEnv := ⟨true, true, true, true⟩

/-- The run where all three teardown calls succeed. -/
def allOkTeardown : TearEnv := ⟨true, true, true⟩

/-! ## The nine scenarios, embedded step for step

Locators and literals shared by every script (the login form, the sign-out
button, the dashboard link, the literal credentials). -/

def emailField : String := "xpath=html/body/div[2]/div[2]/div[3]/div/form/div/input"

def passwordField : String := "xpath=html/body/div[2]/div[2]/div[3]/div/form/div[2]/input"

def signInButton : String := "xpath=html/body/div[2]/div[2]/div[3]/div/form/button"

def signOutButton : String := "xpath=html/body/div[2]/nav/div[2]/div/div[2]/div[2]/button"

def dashboardLink : String := "xpath=html/body/div[2]/nav/div[2]/div/div/div/a"

def adminEmail : String := "admin@mpdee.co.uk"

def adminPassword : String := "Q-0ww9qe?"

/-- Lines 33-46, identical in all nine scripts: `page.goto(..., timeout=10000)`,
then a best-effort `wait_for_load_state("domcontentloaded", timeout=3000)` on
the page, then the same best-effort wait for each frame (the loop over
`page.frames` is a sequence of such waits; one stands for it here since every
iteration swallows its error and cannot change control flow). -/
def preamble : List Step :=
  [ .navigate "http://localhost:3000/fleet" 10000,
    .waitForLoad 3000,
    .waitForLoad 3000 ]

/-- TC001_Authentication_success_with_valid_employee_credentials.py, lines 48-154. -/
def tc001 : List Step := preamble ++
  [ .click dashboardLink 5000,
    .fill emailField "admin@mpdee.co.uk",
    .fill passwordField "Q-0ww9qe?",
    .click signInButton 5000,
    .click signOutButton 5000,
    .fill emailField "admin@mpdee.co.uk",
    .fill passwordField "Q-0ww9qe?",
    .click signInButton 5000,
    .click signOutButton 5000,
    .fill emailField "admin@mpdee.co.uk",
    .fill passwordField "Q-0ww9qe?",
    .click signInButton 5000,
    .click "xpath=html/body/div[2]/div[4]/main/div/div[2]/div/div" 5000,
    .click "xpath=html/body/div[2]/div[4]/main/div/div[2]/div/div[2]" 5000,
    .click "xpath=html/body/div[2]/div[4]/main/div/div[2]/div/div[3]" 5000,
    .assertVisible "text=Employee Dashboard Access Granted" 30000
      (some "Test case failed: Employee authentication using Supabase Auth did not succeed or dashboard with appropriate permissions was not displayed as expected."),
    .sleep 5 ]

/-- TC002_Workshop_task_creation_with_two_tier_taxonomy.py, lines 48-156. -/
def tc002 : List Step := preamble ++
  [ .click signOutButton 5000,
    .fill emailField "admin@mpdee.co.uk",
    .fill passwordField "Q-0ww9qe?",
    .click signInButton 5000,
    .click "xpath=html/body/div[2]/div[4]/main/div/div[2]/div/a[6]" 5000,
    .click "xpath=html/body/div[2]/div[4]/main/div/div/div/button" 5000,
    .click "xpath=html/body/div[5]/div[2]/div/button" 5000,
    .click "xpath=html/body/div[6]/div/div/div" 5000,
    .click "xpath=html/body/div[5]/div[2]/div[2]/button" 5000,
    .click "xpath=html/body/div[6]/div/div/div[2]" 5000,
    .click "xpath=html/body/div[5]/div[2]/div[3]/button" 5000,
    .click "xpath=html/body/div[6]/div/div/div[3]" 5000,
    .fill "xpath=html/body/div[5]/div[2]/div[4]/input" "12345",
    .fill "xpath=html/body/div[5]/div[2]/div[5]/textarea" "Electrical system requires inspection and repair.",
    .click "xpath=html/body/div[5]" 5000,
    .assertVisible "text=Nonexistent Category Badge" 1000
      (some "Test case failed: The test plan execution failed to create a new workshop task with correct category and subcategory badges, colors, and icons as expected."),
    .sleep 5 ]

/-- TC003_Workshop_task_comments_timeline_CRUD_for_author.py, lines 48-137. -/
def tc003 : List Step := preamble ++
  [ .click signOutButton 5000,
    .fill emailField "admin@mpdee.co.uk",
    .fill passwordField "Q-0ww9qe?",
    .click signInButton 5000,
    .click "xpath=html/body/div[2]/nav/div[2]/div/div/div/a[7]" 5000,
    .click "xpath=html/body/div[2]/div[4]/main/div/div[2]/div[2]/div[3]/div/div/div/div/div/div/div/div[2]/button" 5000,
    .fill "xpath=html/body/div[5]/div[3]/textarea" "This is a test comment.",
    .click "xpath=html/body/div[5]/button" 5000,
    .click "xpath=html/body/div[2]/div[4]/main/div/div[2]/div[2]/div[3]/div/div/div/div/div/div/div/div[2]/button[3]" 5000,
    .click "xpath=html/body/div[5]/button" 5000,
    .click "xpath=html/body/div[2]/div[4]/main/div/div[2]/div[2]/div[3]/div/div/div/div/div/div/div/div[2]/button[2]" 5000,
    .click "xpath=html/body/div[5]/div[3]/button" 5000,
    .assertVisible "text=Comment Added Successfully" 1000
      (some "Test case failed: The test plan execution for adding, editing, and deleting comments on a workshop task timeline did not complete successfully. The comment was not found with correct author and timestamp, or the edit/delete operations did not reflect properly."),
    .sleep 5 ]

/-- TC006_Fleet_page_tab_navigation_and_data_loading.py, lines 48-183.  The
five final `expect` calls are bare: no `try/except AssertionError` wrapper,
hence no fixed diagnostic. -/
def tc006 : List Step := preamble ++
  [ .click signOutButton 5000,
    .fill emailField "admin@mpdee.co.uk",
    .fill passwordField "Q-0ww9qe?",
    .click signInButton 5000,
    .click "xpath=html/body/div[2]/nav/div[2]/div/div/div/a[6]" 5000,
    .click signOutButton 5000,
    .fill emailField "admin@mpdee.co.uk",
    .fill passwordField "Q-0ww9qe?",
    .click signInButton 5000,
    .click "xpath=html/body/div[2]/nav/div[2]/div/div/div/a[6]" 5000,
    .click signOutButton 5000,
    .fill emailField "admin@mpdee.co.uk",
    .fill passwordField "Q-0ww9qe?",
    .click signInButton 5000,
    .click "xpath=html/body/div[2]/nav/div[2]/div/div/div/a[6]" 5000,
    .click "xpath=html/body/div[2]/div[4]/main/div/div[2]/div/button[2]" 5000,
    .click "xpath=html/body/div[2]/div[4]/main/div/div[2]/div/button[3]" 5000,
    .click "xpath=html/body/div[2]/div[4]/main/div/div[2]/div/button[4]" 5000,
    .click signOutButton 5000,
    .assertVisible "text=Maintenance" 2000 none,
    .assertVisible "text=Vehicles" 2000 none,
    .assertVisible "text=Categories" 2000 none,
    .assertVisible "text=Settings" 2000 none,
    .assertVisible "text=Contact your administrator for account access" 30000 none,
    .sleep 5 ]

/-- TC010_Digital_vehicle_inspection_form_defect_submission_and_PDF_export.py,
lines 48-163. -/
def tc010 : List Step := preamble ++
  [ .click signOutButton 5000,
    .fill emailField "admin@mpdee.co.uk",
    .fill passwordField "Q-0ww9qe?",
    .click signInButton 5000,
    .click "xpath=html/body/div[2]/div[3]/div/button" 5000,
    .click "xpath=html/body/div[2]/div[2]" 5000,
    .click "xpath=html/body/div[2]/nav/div[2]/div/div/div/a[3]" 5000,
    .fill emailField "admin@mpdee.co.uk",
    .fill passwordField "Q-0ww9qe?",
    .click signInButton 5000,
    .click "xpath=html/body/div[2]/div[3]/div[2]/div/div[2]/a" 5000,
    .click "xpath=html/body/div[2]/nav/div[2]/div/div/div/a[3]" 5000,
    .click "xpath=html/body/div[2]/div[4]/main/div/div/div/a/button" 5000,
    .click "xpath=html/body/div[2]/div[4]/main/div/div[2]/div[2]/div[2]/div/button" 5000,
    .click "xpath=html/body/div[4]/div/div/div[2]" 5000,
    .click "xpath=html/body/div[2]/div[4]/main/div/div[2]/div[2]/div[2]/div[2]/input" 5000,
    .assertVisible "text=Vehicle Inspection Submission Successful" 1000
      (some "Test case failed: The vehicle inspection form submission, compliance report generation, or PDF export did not complete successfully as per the test plan."),
    .sleep 5 ]

/-- TC011_RAMS_digital_signature_workflow_with_export_and_email.py, lines 48-200. -/
def tc011 : List Step := preamble ++
  [ .click signOutButton 5000,
    .fill emailField "admin@mpdee.co.uk",
    .fill passwordField "Q-0ww9qe?",
    .click signInButton 5000,
    .click "xpath=html/body/div[2]/nav/div[2]/div/div/div/a[4]" 5000,
    .fill emailField "admin@mpdee.co.uk",
    .fill passwordField "Q-0ww9qe?",
    .click signInButton 5000,
    .click "xpath=html/body/div[2]/nav/div[2]/div/div/div/a[4]" 5000,
    .click "xpath=html/body/div[2]/div[4]/main/div/div/div/div[2]/a/button" 5000,
    .fill emailField "admin@mpdee.co.uk",
    .fill passwordField "Q-0ww9qe?",
    .click signInButton 5000,
    .click "xpath=html/body/div[2]/nav/div[2]/div/div/div/a[4]" 5000,
    .click "xpath=html/body/div[2]/div[4]/main/div/div/div/div[2]/a/button" 5000,
    .click "xpath=html/body/div[2]/div[4]/main/div/div/div/button" 5000,
    .fill "xpath=html/body/div[5]/form/div[2]/div/input" "Test RAMS Document for Digital Signature",
    .fill "xpath=html/body/div[5]/form/div[2]/div[2]/textarea" "This is a test RAMS document to verify digital signature, visitor acknowledgments, PDF export, and email distribution features.",
    .click "xpath=html/body/div[5]/form/div[2]/div[3]/div/button" 5000,
    .click "xpath=html/body/div[5]/form/div[2]/div[3]/div/button" 5000,
    .click "xpath=html/body/div[5]" 5000,
    .click "xpath=html/body/div[5]/form/div[3]/button" 5000,
    .assertVisible "text=Digital Signature Verified Successfully" 1000
      (some "Test case failed: The risk assessment method statements support for digital signature capture, visitor acknowledgments, PDF export, and email distribution could not be verified as the test plan execution failed."),
    .sleep 5 ]

/-- TC014_Database_migration_script_execution_without_data_loss.py, lines 48-109. -/
def tc014 : List Step := preamble ++
  [ .click dashboardLink 5000,
    .fill emailField "admin@mpdee.co.uk",
    .fill passwordField "Q-0ww9qe?",
    .click signInButton 5000,
    .click "xpath=html/body/div[2]/div[4]/main/div/div[2]/div/a[6]" 5000,
    .click "xpath=html/body/div[2]/div[4]/main/div/div[2]/div[2]/div[3]/div/div/div/div/div/div/div/div[2]/button" 5000,
    .fill "xpath=html/body/div[5]/div[3]/textarea" "Test comment for migration verification.",
    .click "xpath=html/body/div[5]/div[3]/div/button" 5000,
    .assertVisible "text=Migration Completed Successfully" 1000
      (some "Test case failed: Database migrations did not complete successfully, legacy data may not be backfilled correctly, or data integrity is compromised as per the test plan."),
    .sleep 5 ]

/-- TC016_Input_validation_on_workshop_task_comments_minimum_length.py,
lines 48-136.  The five final `expect` calls are bare: no
`try/except AssertionError` wrapper, hence no fixed diagnostic. -/
def tc016 : List Step := preamble ++
  [ .click dashboardLink 5000,
    .fill emailField "admin@mpdee.co.uk",
    .fill passwordField "Q-0ww9qe?",
    .click signInButton 5000,
    .click "xpath=html/body/div[2]/nav/div[2]/div/div/div/a[7]" 5000,
    .click "xpath=html/body/div[2]/div[4]/main/div/div[2]/div[2]/div[3]/div/div/div/div/div/div/div/div[2]/button" 5000,
    .fill "xpath=html/body/div[5]/div[3]/textarea" "Too short",
    .fill "xpath=html/body/div[5]/div[3]/textarea" "Valid text",
    .click "xpath=html/body/div[5]/div[3]/div/button" 5000,
    .fill "xpath=html/body/div[5]/div[3]/textarea" "This is a longer comment with more than 10 characters.",
    .click "xpath=html/body/div[5]/div[3]/div/button" 5000,
    .click "xpath=html/body/div[5]/div[3]/div/button" 5000,
    .assertVisible "text=Electrical system requires inspection and repair." 30000 none,
    .assertVisible "text=Big crack in windscreen" 30000 none,
    .assertVisible "text=Windscreen before MOT unless unsafe" 30000 none,
    .assertVisible "text=Do windscreen before MOT" 30000 none,
    .assertVisible "text=No comments yet. Add the first note." 30000 none,
    .sleep 5 ]

/-- TC019_Centralized_error_logging_captures_exceptions_and_reports.py,
lines 48-143.  The three mid-scenario `page.goto` calls append other routes
to the same base URL. -/
def tc019 : List Step := preamble ++
  [ .click signOutButton 5000,
    .fill emailField "admin@mpdee.co.uk",
    .fill passwordField "Q-0ww9qe?",
    .click signInButton 5000,
    .navigate "http://localhost:3000/api/invalid-endpoint" 10000,
    .sleep 3,
    .navigate "http://localhost:3000/logs" 10000,
    .sleep 3,
    .navigate "http://localhost:3000/dashboard" 10000,
    .sleep 3,
    .fill emailField "admin@mpdee.co.uk",
    .fill passwordField "Q-0ww9qe?",
    .click signInButton 5000,
    .click "xpath=html/body/div[2]/div[3]/div[2]/div[3]/div[2]/a" 5000,
    .click "xpath=html/body/div[2]/div[4]/main/div/div[3]/div[2]/div/div/div/div[2]/button[2]" 5000,
    .click "xpath=html/body/div[2]/div[4]/main/div/div[3]/div[2]/div/div[2]/div/div[2]/div/input" 5000,
    .click dashboardLink 5000,
    .assertVisible "text=No Errors Detected in Logs" 1000
      (some "Test case failed: The test plan execution has failed because the intentional application error was not recorded in centralized logs, dashboard monitoring UI did not reflect the error event, or the daily email summary did not include the logged error."),
    .sleep 5 ]

/-- The full scenario set of the repository, keyed by test-case id. -/
def scenarioSet : List (String × List Step) :=
  [ ("TC001", tc001), ("TC002", tc002), ("TC003", tc003), ("TC006", tc006),
    ("TC010", tc010), ("TC011", tc011), ("TC014", tc014), ("TC016", tc016),
    ("TC019", tc019) ]

/-! ## Derived views of a scenario -/

/-- The texts a scenario fills into the element at locator `loc`, in order. -/
def fillTexts (loc : String) : List Step → List String
  | [] => []
  | .fill l x :: rest => if l = loc then x :: fillTexts loc rest else fillTexts loc rest
  | _ :: rest => fillTexts loc rest

/-- The number of clicks a scenario performs on the element at locator `loc`. -/
def clickCount (loc : String) : List Step → Nat
  | [] => 0
  | .click l _ :: rest => (if l = loc then 1 else 0) + clickCount loc rest
  | _ :: rest => clickCount loc rest

/-- The (email, password) pairs a scenario submits through the login form:
the texts filled into the email field paired with the texts filled into the
password field, in order of submission. -/
def credentialPairs (s : List Step) : List (String × String) :=
  (fillTexts emailField s).zip (fillTexts passwordField s)

/-- Every credential pair submitted by any scenario of the set. -/
def allCredentialPairs : List (String × String) :=
  (scenarioSet.map fun p => credentialPairs p.2).flatten

/-- The target of a scenario's entry navigation (its first `navigate` step). -/
def entryUrl : List Step → Option String
  | [] => none
  | .navigate u _ :: _ => some u
  | _ :: rest => entryUrl rest

/-- Whether a step is a bare assertion (an `expect` with no
`try/except AssertionError` wrapper and hence no fixed diagnostic). -/
def isBareAssert : Step → Bool
  | .assertVisible _ _ none => true
  | _ => false

/-- The scenarios of the set that contain at least one bare assertion. -/
def bareAssertScenarios : List String :=
  (scenarioSet.filter fun p => p.2.any isBareAssert).map Prod.fst

/-! ## Executor lemmas -/

/-- Splitting a run at a prefix that completes: the remaining steps run from
the index right after the prefix, and the log is the concatenation. -/
theorem runSteps_append_passed (env : Nat → Outcome) (pre post : List Step) (i : Nat)
    (h : (runSteps env i pre).2 = .passed) :
    runSteps env i (pre ++ post) =
      ((runSteps env i pre).1 ++ (runSteps env (i + pre.length) post).1,
       (runSteps env (i + pre.length) post).2) := by
  induction pre generalizing i with
  | nil => simp [runSteps]
  | cons s rest ih =>
    rw [List.cons_append]
    cases hs : stepSem s (env i) with
    | proceed =>
      have h' : (runSteps env (i + 1) rest).2 = .passed := by
        simpa [runSteps, hs] using h
      have harith : i + 1 + rest.length = i + (rest.length + 1) := by omega
      simp [runSteps, hs, ih (i + 1) h', harith]
    | abortError =>
      exfalso
      simp [runSteps, hs] at h
    | abortFail d =>
      exfalso
      simp [runSteps, hs] at h

/-- The executor consults the environment only at the indices of the steps
it is given: two environments agreeing there produce identical runs. -/
theorem runSteps_env_congr (steps : List Step) (env1 env2 : Nat → Outcome) (i : Nat)
    (h : ∀ j, i ≤ j → j < i + steps.length → env1 j = env2 j) :
    runSteps env1 i steps = runSteps env2 i steps := by
  induction steps generalizing i with
  | nil => simp [runSteps]
  | cons s rest ih =>
    have hi : env1 i = env2 i := h i (Nat.le_refl i) (by simp [List.length_cons])
    have ihr : runSteps env1 (i + 1) rest = runSteps env2 (i + 1) rest := by
      refine ih (i + 1) (fun j hj1 hj2 => h j (by omega) ?_)
      simp [List.length_cons]
      omega
    simp [runSteps, hi, ihr]

/-! ## Environments used in concrete instantiations -/

/-- The application answers every step in time. -/
def okEnv : Nat → Outcome := fun _ => .ok

/-- The application answers no step in time. -/
def timeoutEnv : Nat → Outcome := fun _ => .timeout

/-- The application answers the first `n` steps in time and none after. -/
def okUntil (n : Nat) : Nat → Outcome := fun j => if j < n then .ok else .timeout

/-! ## Claims -/

/-- C1: for every environment (hence every exit path of the step sequence —
normal completion, assertion failure, or unexpected step error) and every
scenario, a run that acquired its Session closes the browser context, the
browser and the underlying engine handle each exactly once. -/
theorem session_released_exactly_once (env : Nat → Outcome) (steps : List Step) :
    (runTest allOkSetup env allOkTeardown steps).closes = [.context, .browser, .pw] ∧
    ∀ r : Resource, (runTest allOkSetup env allOkTeardown steps).closes.count r = 1 := by
  have hcl : (runTest allOkSetup env allOkTeardown steps).closes
      = [.context, .browser, .pw] := by
    simp [runTest, runBody, allOkSetup, allOkTeardown, tdContext, tdBrowser, tdStop]
  refine ⟨hcl, fun r => ?_⟩
  rw [hcl]
  cases r <;> decide

/-- C2 counterexample: teardown errors are not swallowed.  In a run of TC001
where every step succeeds but `context.close()` raises, the raised error
escalates as the run's result (replacing the Pass verdict) and neither the
browser nor the engine handle is ever closed. -/
theorem teardown_error_masks_cx :
    (runTest allOkSetup okEnv ⟨false, true, true⟩ tc001).result
      = .teardownError .context ∧
    (runTest allOkSetup okEnv ⟨false, true, true⟩ tc001).closes = [.context] := by
  constructor <;> rfl

/-- C2 amended: an error raised by `context.close()` during teardown is not
caught: for every scenario and environment it escalates as the run's result,
masking the original verdict, and the `browser.close()` and `pw.stop()`
calls are skipped. -/
theorem teardown_error_escalates (env : Nat → Outcome) (steps : List Step) :
    (runTest allOkSetup env ⟨false, true, true⟩ steps).result
      = .teardownError .context ∧
    (runTest allOkSetup env ⟨false, true, true⟩ steps).closes = [.context] := by
  constructor <;>
    simp [runTest, runBody, allOkSetup, tdContext, tdBrowser, tdStop]

/-- C4: a best-effort load-state wait whose timeout elapses is logged in the
execution trace and skipped: the run continues with the next step and its
result is exactly the result of the remaining steps, so the timeout never
aborts the scenario. -/
theorem load_wait_timeout_skipped (env : Nat → Outcome) (i t : Nat) (rest : List Step)
    (henv : env i = .timeout) :
    runSteps env i (.waitForLoad t :: rest) =
      (⟨i, .waitForLoad t, .timeout⟩ :: (runSteps env (i + 1) rest).1,
       (runSteps env (i + 1) rest).2) := by
  simp [runSteps, stepSem, traceOut, henv]

/-- Witness for C4 at a concrete input. -/
theorem load_wait_timeout_skipped_witness :
    timeoutEnv 0 = .timeout ∧
    runSteps timeoutEnv 0 [Step.waitForLoad 3000, Step.sleep 5] =
      (⟨0, Step.waitForLoad 3000, .timeout⟩ :: (runSteps timeoutEnv 1 [Step.sleep 5]).1,
       (runSteps timeoutEnv 1 [Step.sleep 5]).2) :=
  ⟨rfl, load_wait_timeout_skipped timeoutEnv 0 3000 [Step.sleep 5] rfl⟩

/-- Running with all acquisitions and teardown calls succeeding: the result
and log are the step sequence's, and the three closes happen in reverse
acquisition order. -/
theorem runTest_allOk (env : Nat → Outcome) (steps : List Step) :
    runTest allOkSetup env allOkTeardown steps =
      { result := liftStepResult (runSteps env 0 steps).2,
        trace := (runSteps env 0 steps).1,
        closes := [.context, .browser, .pw] } := by
  simp [runTest, runBody, allOkSetup, allOkTeardown, tdContext, tdBrowser, tdStop]

/-- A step sequence whose prefix completes and whose next step is an
assertion that fails: the run is the prefix's log plus the failing
assertion, and the result carries that assertion's diagnostic. -/
theorem runSteps_fail_at (env : Nat → Outcome) (pre rest : List Step)
    (loc : String) (t : Nat) (d : Option String)
    (hpre : (runSteps env 0 pre).2 = .passed)
    (henv : env pre.length = .timeout) :
    runSteps env 0 (pre ++ .assertVisible loc t d :: rest) =
      ((runSteps env 0 pre).1 ++ [⟨pre.length, .assertVisible loc t d, .timeout⟩],
       .failed (assertDiag loc t d)) := by
  rw [runSteps_append_passed env pre (.assertVisible loc t d :: rest) 0 hpre]
  simp [runSteps, stepSem, henv]

/-- A step sequence whose prefix completes and whose next step is a click
that exceeds its timeout: the run is the prefix's log plus the timed-out
click, and the result is the uncaught step error at that index. -/
theorem runSteps_error_at (env : Nat → Outcome) (pre rest : List Step)
    (loc : String) (t : Nat)
    (hpre : (runSteps env 0 pre).2 = .passed)
    (henv : env pre.length = .timeout) :
    runSteps env 0 (pre ++ .click loc t :: rest) =
      ((runSteps env 0 pre).1 ++ [⟨pre.length, .click loc t, .timeout⟩],
       .stepError pre.length) := by
  rw [runSteps_append_passed env pre (.click loc t :: rest) 0 hpre]
  simp [runSteps, stepSem, henv]

/-- C3: in every scenario and environment where the steps before an
assertion complete and the assertion itself fails, the run's verdict is
Fail with that assertion's diagnostic, the execution log stops at the
failing assertion (no step after it is executed), and exactly one
diagnostic is produced — the first failing assertion short-circuits
everything that follows, later assertions included. -/
theorem assertion_failure_short_circuits (env : Nat → Outcome) (pre rest : List Step)
    (loc : String) (t : Nat) (d : Option String)
    (hpre : (runSteps env 0 pre).2 = .passed)
    (henv : env pre.length = .timeout) :
    (runTest allOkSetup env allOkTeardown (pre ++ .assertVisible loc t d :: rest)).result
      = .failed (assertDiag loc t d) ∧
    (runTest allOkSetup env allOkTeardown (pre ++ .assertVisible loc t d :: rest)).trace
      = (runSteps env 0 pre).1 ++ [⟨pre.length, .assertVisible loc t d, .timeout⟩] ∧
    diagnostics (runSteps env 0 (pre ++ .assertVisible loc t d :: rest)).2
      = [assertDiag loc t d] := by
  have hrun := runSteps_fail_at env pre rest loc t d hpre henv
  refine ⟨?_, ?_, ?_⟩
  · simp [runTest_allOk, hrun, liftStepResult]
  · simp [runTest_allOk, hrun]
  · simp [hrun, diagnostics]

/-- Witness for C3 at a concrete input: the shared preamble followed by a
failing wrapped assertion and one further step that is never reached. -/
theorem assertion_failure_short_circuits_witness :
    (runSteps (okUntil 3) 0 preamble).2 = .passed ∧
    okUntil 3 preamble.length = .timeout ∧
    ((runTest allOkSetup (okUntil 3) allOkTeardown
        (preamble ++ .assertVisible "text=X" 1000 (some "diag") :: [Step.sleep 5])).result
      = .failed (assertDiag "text=X" 1000 (some "diag")) ∧
    (runTest allOkSetup (okUntil 3) allOkTeardown
        (preamble ++ .assertVisible "text=X" 1000 (some "diag") :: [Step.sleep 5])).trace
      = (runSteps (okUntil 3) 0 preamble).1
        ++ [⟨preamble.length, .assertVisible "text=X" 1000 (some "diag"), .timeout⟩] ∧
    diagnostics (runSteps (okUntil 3) 0
        (preamble ++ .assertVisible "text=X" 1000 (some "diag") :: [Step.sleep 5])).2
      = [assertDiag "text=X" 1000 (some "diag")]) :=
  ⟨by decide, by decide,
   assertion_failure_short_circuits (okUntil 3) preamble [Step.sleep 5]
     "text=X" 1000 (some "diag") (by decide) (by decide)⟩

/-- C5 counterexample: not every failing assertion carries a fixed
diagnostic string.  In TC016 the assertions are bare `expect` calls: in the
run where every step up to the first assertion succeeds and that assertion
fails (the locator never becomes visible before its 30000 ms deadline), the
Fail verdict carries the assertion library's generated message, and no
fixed scenario string at all. -/
theorem bare_assertion_library_message_cx :
    (runTest allOkSetup (okUntil 15) allOkTeardown tc016).result
      = .failed (.library "text=Electrical system requires inspection and repair." 30000) ∧
    ∀ s : String,
      (runTest allOkSetup (okUntil 15) allOkTeardown tc016).result ≠ .failed (.fixed s) := by
  have h : (runTest allOkSetup (okUntil 15) allOkTeardown tc016).result
      = .failed (.library "text=Electrical system requires inspection and repair." 30000) := by
    decide
  refine ⟨h, fun s hs => ?_⟩
  rw [h] at hs
  simp at hs

/-- C5 amended: every failing assertion that the scenario wraps in
`try/except AssertionError` produces a Fail verdict carrying exactly the
scenario's fixed diagnostic string; the only scenarios with bare,
unwrapped assertions — whose failures carry the assertion library's
message instead — are TC006 and TC016. -/
theorem wrapped_assertion_fixed_diagnostic (env : Nat → Outcome) (pre rest : List Step)
    (loc : String) (t : Nat) (m : String)
    (hpre : (runSteps env 0 pre).2 = .passed)
    (henv : env pre.length = .timeout) :
    (runTest allOkSetup env allOkTeardown (pre ++ .assertVisible loc t (some m) :: rest)).result
      = .failed (.fixed m) ∧
    bareAssertScenarios = ["TC006", "TC016"] := by
  have hrun := runSteps_fail_at env pre rest loc t (some m) hpre henv
  constructor
  · simp [runTest_allOk, hrun, liftStepResult, assertDiag]
  · decide

/-- Witness for the amended C5 at a concrete input. -/
theorem wrapped_assertion_fixed_diagnostic_witness :
    (runSteps (okUntil 3) 0 preamble).2 = .passed ∧
    okUntil 3 preamble.length = .timeout ∧
    ((runTest allOkSetup (okUntil 3) allOkTeardown
        (preamble ++ .assertVisible "text=Y" 1000 (some "msg") :: [])).result
      = .failed (.fixed "msg") ∧
    bareAssertScenarios = ["TC006", "TC016"]) :=
  ⟨by decide, by decide,
   wrapped_assertion_fixed_diagnostic (okUntil 3) preamble [] "text=Y" 1000 "msg"
     (by decide) (by decide)⟩

/-- C6 counterexample: across the whole scenario set a single credential
pair is submitted, not two: deduplicating every (email, password) pair
filled into the login form of any scenario leaves exactly one pair. -/
theorem two_credential_pairs_cx :
    allCredentialPairs.dedup = [("admin@mpdee.co.uk", "Q-0ww9qe?")] ∧
    allCredentialPairs.dedup.length ≠ 2 := by
  have h : allCredentialPairs.dedup = [("admin@mpdee.co.uk", "Q-0ww9qe?")] := by decide
  exact ⟨h, by rw [h]; decide⟩

/-- C6 amended: every scenario submits literal credentials through the
login form (an email field, a password field and a submit control), but
across the scenario set exactly one distinct credential pair is used — the
administrative account — with no second, employee pair. -/
theorem single_credential_pair :
    allCredentialPairs.dedup = [(adminEmail, adminPassword)] ∧
    (scenarioSet.all fun p =>
      !(fillTexts emailField p.2).isEmpty &&
      !(fillTexts passwordField p.2).isEmpty &&
      clickCount signInButton p.2 != 0) = true := by
  constructor
  · decide
  · decide

/-- C7: in every scenario and environment where the steps before an
interactive click complete and the click exceeds its timeout, the abort
happens at that step — the execution log ends with the timed-out click and
no later step runs — while the surrounding teardown still executes in
full: context, browser and engine handle are each closed exactly once via
the scoped `finally` release. -/
theorem step_timeout_confined (env : Nat → Outcome) (pre rest : List Step)
    (loc : String) (t : Nat)
    (hpre : (runSteps env 0 pre).2 = .passed)
    (henv : env pre.length = .timeout) :
    (runTest allOkSetup env allOkTeardown (pre ++ .click loc t :: rest)).result
      = .stepError pre.length ∧
    (runTest allOkSetup env allOkTeardown (pre ++ .click loc t :: rest)).trace
      = (runSteps env 0 pre).1 ++ [⟨pre.length, .click loc t, .timeout⟩] ∧
    (runTest allOkSetup env allOkTeardown (pre ++ .click loc t :: rest)).closes
      = [.context, .browser, .pw] := by
  have hrun := runSteps_error_at env pre rest loc t hpre henv
  refine ⟨?_, ?_, ?_⟩
  · simp [runTest_allOk, hrun, liftStepResult]
  · simp [runTest_allOk, hrun]
  · simp [runTest_allOk]

/-- Witness for C7 at a concrete input: the shared preamble followed by a
click that times out and one further step that is never reached. -/
theorem step_timeout_confined_witness :
    (runSteps (okUntil 3) 0 preamble).2 = .passed ∧
    okUntil 3 preamble.length = .timeout ∧
    ((runTest allOkSetup (okUntil 3) allOkTeardown
        (preamble ++ .click signInButton 5000 :: [Step.sleep 5])).result
      = .stepError preamble.length ∧
    (runTest allOkSetup (okUntil 3) allOkTeardown
        (preamble ++ .click signInButton 5000 :: [Step.sleep 5])).trace
      = (runSteps (okUntil 3) 0 preamble).1
        ++ [⟨preamble.length, .click signInButton 5000, .timeout⟩] ∧
    (runTest allOkSetup (okUntil 3) allOkTeardown
        (preamble ++ .click signInButton 5000 :: [Step.sleep 5])).closes
      = [.context, .browser, .pw]) :=
  ⟨by decide, by decide,
   step_timeout_confined (okUntil 3) preamble [Step.sleep 5] signInButton 5000
     (by decide) (by decide)⟩

/-- C8 counterexample: the entry route is not scenario-specific.  All nine
scenarios of the set navigate first to the very same URL: deduplicating
the nine entry targets leaves a single URL. -/
theorem entry_route_not_scenario_specific_cx :
    (scenarioSet.map fun p => entryUrl p.2).dedup = [some "http://localhost:3000/fleet"] ∧
    scenarioSet.length = 9 := by
  constructor
  · decide
  · decide

/-- C8 amended: every scenario's entry navigation targets the fixed base
URL of the application with the same fixed route "/fleet" appended — the
entry target is identical across the scenario set rather than
scenario-specific. -/
theorem entry_url_fixed_route :
    (scenarioSet.map fun p => entryUrl p.2)
      = List.replicate 9 (some ("http://localhost:3000" ++ "/fleet")) := by
  decide

/-- C9: a scenario is a straight-line program — the run consults the
application's responses only at its own step indices — so two runs of the
same scenario seeing identical application responses produce identical
outcomes (verdict, log and closes alike). -/
theorem identical_responses_identical_verdict (se : SetupEnv) (te : TearEnv)
    (steps : List Step) (env1 env2 : Nat → Outcome)
    (h : ∀ j, j < steps.length → env1 j = env2 j) :
    runTest se env1 te steps = runTest se env2 te steps := by
  have hs : runSteps env1 0 steps = runSteps env2 0 steps :=
    runSteps_env_congr steps env1 env2 0 (fun j _ hj2 => h j (by omega))
  simp [runTest, runBody, hs]

/-- Witness for C9 at a concrete input: two environments that agree on
TC014's thirteen steps (and disagree beyond them) give identical runs. -/
theorem identical_responses_identical_verdict_witness :
    (∀ j, j < tc014.length → okEnv j = okUntil 13 j) ∧
    runTest allOkSetup okEnv allOkTeardown tc014
      = runTest allOkSetup (okUntil 13) allOkTeardown tc014 :=
  ⟨by decide,
   identical_responses_identical_verdict allOkSetup allOkTeardown tc014
     okEnv (okUntil 13) (by decide)⟩

/-- C10: on every exit path the teardown closes exactly the resources whose
variables were set (acquired), in reverse order of acquisition — context,
then browser, then engine handle — and a resource can only have been
acquired if the ones acquired before it were: a failure before an
acquisition never causes a release of that resource. -/
theorem closes_match_acquisitions (se : SetupEnv) (env : Nat → Outcome) (steps : List Step) :
    (runTest se env allOkTeardown steps).closes =
      ((if (runBody se env steps).hasContext then [Resource.context] else []) ++
       (if (runBody se env steps).hasBrowser then [Resource.browser] else []) ++
       (if (runBody se env steps).hasPw then [Resource.pw] else [])) ∧
    ((runBody se env steps).hasContext = true → (runBody se env steps).hasBrowser = true) ∧
    ((runBody se env steps).hasBrowser = true → (runBody se env steps).hasPw = true) := by
  obtain ⟨s1, s2, s3, s4⟩ := se
  cases s1 <;> cases s2 <;> cases s3 <;> cases s4 <;>
    simp [runTest, runBody, tdContext, tdBrowser, tdStop, allOkTeardown]
